import Mathlib

/-!
Shallow embedding of the PlanCast scoring-and-guidance engine.

The engine lives in `src/screens/PlansListScreen.tsx` (breakdown-returning
`calcScore`, `getExplanation`), `src/screens/InsightsScreen.tsx`
(single-value `calcScore`, `getGuidance`, `fetchForecast`) and the
near-identical `src/unnamed/part_001` / `src/unnamed/part_004`.

JavaScript numbers are modelled as rationals (ℚ); `Math.round` is modelled
as `jsRound` below (round half toward +∞, exactly JS semantics).
-/

namespace PlanCast

/-- JS `Math.round`: nearest integer, halves rounded toward +∞,
i.e. `Math.round(x) = ⌊x + 0.5⌋`. -/
def jsRound (q : ℚ) : ℤ := ⌊q + 1/2⌋

/-- JS `Number.prototype.toFixed(1)` (ECMA-262 Number::toFixed): for a
negative number, format the negation and prefix a minus sign; otherwise pick
the integer n closest to `x * 10` (ties to the larger n, i.e. toward +∞) and
print `n/10 "." n%10`. -/
def toFixed1 (q : ℚ) : String :=
  if q < 0 then
    let n : ℕ := (⌊(-q) * 10 + 1/2⌋).toNat
    "-" ++ toString (n / 10) ++ "." ++ toString (n % 10)
  else
    let n : ℕ := (⌊q * 10 + 1/2⌋).toNat
    toString (n / 10) ++ "." ++ toString (n % 10)

/-- The `Weather` type of `src/App.tsx`:
`{ temp: number; rain: number; wind: number }` (°C, mm, m/s). -/
structure Weather where
  temp : ℚ
  rain : ℚ
  wind : ℚ
deriving DecidableEq

/-- Temperature display unit of the `Settings` state (`'C' | 'F'`,
see `src/unnamed/part_002`). -/
inductive TempUnit
  | C
  | F
deriving DecidableEq

/-- Wind display unit of the `Settings` state (`'ms' | 'kmh'`). -/
inductive WindUnit
  | ms
  | kmh
deriving DecidableEq

/-- Risk tolerance setting (`'Low' | 'Medium' | 'High'`). -/
inductive RiskTolerance
  | Low
  | Medium
  | High
deriving DecidableEq

/-- The user-facing `Settings` state consumed by the screens:
display units, risk tolerance, and the `useAI` scoring-mode toggle. -/
structure Settings where
  tempUnit : TempUnit
  windUnit : WindUnit
  riskTolerance : RiskTolerance
  useAI : Bool
deriving DecidableEq

/-- The `'Rule' | 'Model'` scoring-mode selector of
`src/screens/InsightsScreen.tsx`. -/
inductive ScoringMode
  | Rule
  | Model
deriving DecidableEq

/-- The record returned by the breakdown-returning `calcScore` of
`src/screens/PlansListScreen.tsx`:
`{ rain, wind, temp, total }`, all integers after `Math.round`. -/
structure ScoreBreakdown where
  rain : ℤ
  wind : ℤ
  temp : ℤ
  total : ℤ
deriving DecidableEq

/-- The `{ text, color }` record returned by `getGuidance`. -/
structure Guidance where
  text : String
  color : String
deriving DecidableEq

namespace PlansList

/-- `calcScore` of `src/screens/PlansListScreen.tsx` lines 37–50 (identical
in `src/unnamed/part_001` lines 31–44): weights are picked by
`settings.useAI` (`true` ↦ Model weights 7.56/1.71/3.73, `false` ↦ Rule
weights 6/4/3); the per-factor fields are `Math.round` of each weighted
term; `total` is `Math.min(100, Math.max(0, Math.round(rainPts + windPts +
tempPts)))` computed from the UNROUNDED `rainPts`/`windPts`/`tempPts`. -/
def calcScore (settings : Settings) (w : Weather) : ScoreBreakdown :=
  let rainW : ℚ := if settings.useAI then 7.56 else 6
  let windW : ℚ := if settings.useAI then 1.71 else 4
  let tempW : ℚ := if settings.useAI then 3.73 else 3
  let rainPts := w.rain * rainW
  let windPts := w.wind * windW
  let tempPts := |w.temp - 20| * tempW
  { rain := jsRound rainPts
    wind := jsRound windPts
    temp := jsRound tempPts
    total := min 100 (max 0 (jsRound (rainPts + windPts + tempPts))) }

/-- `getExplanation` of `src/screens/PlansListScreen.tsx` lines 53–82
(identical in `src/unnamed/part_001` lines 55–84): early favorable-weather
exit when the sum of the (rounded) breakdown points is below 15, then a
first-match decision tree on the dominant factor (rain checked first, then
wind, temperature as the fallback). -/
def getExplanation (settings : Settings) (w : Weather) (s : ScoreBreakdown) : String :=
  let totalPoints := s.rain + s.wind + s.temp
  if totalPoints < 15 then
    "Weather conditions look favorable."
  else if s.rain ≥ s.wind ∧ s.rain ≥ s.temp then
    if w.rain > 5 then
      "Rain (" ++ toFixed1 w.rain ++ "mm) is the main concern."
    else
      "Light rain may affect plans."
  else if s.wind ≥ s.rain ∧ s.wind ≥ s.temp then
    let windVal := if settings.windUnit = WindUnit.kmh then toFixed1 (w.wind * 3.6) else toFixed1 w.wind
    let windLabel := if settings.windUnit = WindUnit.kmh then "km/h" else "m/s"
    "Wind (" ++ windVal ++ windLabel ++ ") is the main factor."
  else if w.temp < 10 then
    "Cold temperatures may be uncomfortable."
  else
    "Warm temperatures may be a factor."

end PlansList

namespace Insights

/-- The single-value `calcScore` of `src/screens/InsightsScreen.tsx`
lines 22–28: one weighted sum of the raw factors, rounded once, clamped
to [0, 100]. -/
def calcScore (w : Weather) (m : ScoringMode) : ℤ :=
  let rainW : ℚ := if m = ScoringMode.Rule then 6 else 7.56
  let windW : ℚ := if m = ScoringMode.Rule then 4 else 1.71
  let tempW : ℚ := if m = ScoringMode.Rule then 3 else 3.73
  let pts := w.rain * rainW + w.wind * windW + |w.temp - 20| * tempW
  min 100 (max 0 (jsRound pts))

/-- `getGuidance` of `src/screens/InsightsScreen.tsx` lines 30–35
(identical in `src/unnamed/part_001` lines 47–52): the threshold pair is a
ternary on `settings.riskTolerance` with Medium as the fallback. -/
def getGuidance (settings : Settings) (score : ℤ) : Guidance :=
  let t : ℤ × ℤ :=
    if settings.riskTolerance = RiskTolerance.Low then (25, 50)
    else if settings.riskTolerance = RiskTolerance.High then (45, 75)
    else (33, 66)
  if score ≤ t.1 then { text := "Keep", color := "#22c55e" }
  else if score ≤ t.2 then { text := "Adjust", color := "#f97316" }
  else { text := "Reschedule", color := "#ef4444" }

/-- One row of the 5-day risk trend produced by `fetchForecast`. -/
structure ForecastEntry where
  day : String
  score : ℤ
  guidance : String
  color : String
deriving DecidableEq

/-- The noon indices `[12, 36, 60, 84, 108]` into the hourly forecast
arrays, from `fetchForecast`. -/
def noonIndices : List ℕ := [12, 36, 60, 84, 108]

/-- The weekday names array of `fetchForecast`. -/
def dayNames : List String := ["Sun", "Mon", "Tue", "Wed", "Thu", "Fri", "Sat"]

/-- The result-building loop of `fetchForecast` in
`src/screens/InsightsScreen.tsx` lines 59–81. The fetched hourly data is
modelled as `hourly : ℕ → Option Weather`: the three hourly arrays
(`temperature_2m`, `precipitation`, `wind_speed_10m`) share one hourly
grid, so a slot beyond the forecast horizon is absent in all three at once;
the code detects such a slot by `data.hourly.temperature_2m[idx] ===
undefined` and `continue`s past it. `todayDay` is `today.getDay()`
(0 = Sunday). The loop index `i`, not the output position, drives the
weekday offset and the `"(Today)"` / `"(Tomorrow)"` labels. -/
def fetchForecastResults (hourly : ℕ → Option Weather) (settings : Settings)
    (mode : ScoringMode) (todayDay : ℕ) : List ForecastEntry :=
  (List.range noonIndices.length).filterMap fun i =>
    match hourly (noonIndices.getD i 0) with
    | none => none
    | some w =>
      let score := calcScore w mode
      let g := getGuidance settings score
      let dayName := dayNames.getD ((todayDay + i) % 7) ""
      let label :=
        if i = 0 then dayName ++ " (Today)"
        else if i = 1 then dayName ++ " (Tomorrow)"
        else dayName
      some { day := label, score := score, guidance := g.text, color := g.color }

end Insights

end PlanCast

namespace PlanCast

/-- The low guidance threshold per risk tolerance, as the spec's table
(Low 25, Medium 33, High 45) and the ternary in the screens. -/
def lowThreshold : RiskTolerance → ℤ
  | RiskTolerance.Low => 25
  | RiskTolerance.Medium => 33
  | RiskTolerance.High => 45

/-- The high guidance threshold per risk tolerance (Low 50, Medium 66,
High 75). -/
def highThreshold : RiskTolerance → ℤ
  | RiskTolerance.Low => 50
  | RiskTolerance.Medium => 66
  | RiskTolerance.High => 75

/-- Formalisation of the claimed total formula, stated from the spec's
words for comparison with `PlansList.calcScore`: each component is rounded
BEFORE the summation and the total is
`clamp(round(rainPoints + windPoints + tempPoints), 0, 100)` over the
already-rounded points (round-then-sum). -/
def specTotalRoundThenSum (settings : Settings) (w : Weather) : ℤ :=
  let s := PlansList.calcScore settings w
  min 100 (max 0 (jsRound ((s.rain + s.wind + s.temp : ℤ) : ℚ)))

/-- C1 counterexample: at Rule weights (useAI = false) and the sample
temp = 20 + 2/15 °C, rain = 1/15 mm, wind = 1/10 m/s, every weighted
component is 0.4, so round-then-sum gives clamp(round(0+0+0)) = 0, but the
code rounds the unrounded sum 1.2 and returns total = 1. -/
theorem calcScore_round_then_sum_cex :
    ¬ ((PlansList.calcScore ⟨TempUnit.C, WindUnit.ms, RiskTolerance.Medium, false⟩
          ⟨20 + 2/15, 1/15, 1/10⟩).total =
        specTotalRoundThenSum ⟨TempUnit.C, WindUnit.ms, RiskTolerance.Medium, false⟩
          ⟨20 + 2/15, 1/15, 1/10⟩) := by
  norm_num [PlansList.calcScore, specTotalRoundThenSum, jsRound, abs_of_pos]

/-- C1 (amended): for every WeatherSample and ScoringMode, the per-factor
fields of the breakdown are each `round` of the corresponding weighted
term, but the total is `clamp(round(rainPts + windPts + tempPts), 0, 100)`
computed from the UNROUNDED weighted terms: sum-then-round, not
round-then-sum. -/
theorem calcScore_eq_sum_then_round (settings : Settings) (w : Weather) :
    PlansList.calcScore settings w =
      { rain := jsRound (w.rain * (if settings.useAI then 7.56 else 6))
        wind := jsRound (w.wind * (if settings.useAI then 1.71 else 4))
        temp := jsRound (|w.temp - 20| * (if settings.useAI then 3.73 else 3))
        total := min 100 (max 0 (jsRound
          (w.rain * (if settings.useAI then 7.56 else 6) +
           w.wind * (if settings.useAI then 1.71 else 4) +
           |w.temp - 20| * (if settings.useAI then 3.73 else 3)))) } := rfl

/-- C3: for every settings, weather sample and scoring mode, the total of
the breakdown-returning calculator and the single-value calculator both lie
in [0, 100], however large the individual points grow. -/
theorem calcScore_total_bounded (settings : Settings) (w : Weather) (m : ScoringMode) :
    0 ≤ (PlansList.calcScore settings w).total ∧
    (PlansList.calcScore settings w).total ≤ 100 ∧
    0 ≤ Insights.calcScore w m ∧ Insights.calcScore w m ≤ 100 := by
  unfold PlansList.calcScore Insights.calcScore
  dsimp only
  omega

/-- C9: the zero-deviation sample (temperature 20 °C, precipitation 0,
wind 0) scores total 0 under every settings state and in both scoring
modes, in both calculator implementations. -/
theorem calcScore_zero_sample (settings : Settings) (m : ScoringMode) :
    (PlansList.calcScore settings ⟨20, 0, 0⟩).total = 0 ∧
    Insights.calcScore ⟨20, 0, 0⟩ m = 0 := by
  obtain ⟨tu, wu, rt, ai⟩ := settings
  cases ai <;> cases m <;>
    constructor <;> norm_num [PlansList.calcScore, Insights.calcScore, jsRound]

/-- C10: the breakdown-returning calculator of PlansListScreen and the
single-value calculator of InsightsScreen produce the same clamped total,
with useAI = true corresponding to Model mode and useAI = false to Rule
mode. -/
theorem calcScore_totals_agree (settings : Settings) (w : Weather) :
    (PlansList.calcScore settings w).total =
      Insights.calcScore w
        (if settings.useAI then ScoringMode.Model else ScoringMode.Rule) := by
  obtain ⟨tu, wu, rt, ai⟩ := settings
  cases ai <;> rfl

/-- C7: changing only the display-unit preferences (temperature unit and
wind unit) never changes the numeric score: the whole breakdown, per-factor
points and total alike, is identical. -/
theorem calcScore_unit_independent (w : Weather) (ai : Bool) (rt : RiskTolerance)
    (tu1 tu2 : TempUnit) (wu1 wu2 : WindUnit) :
    PlansList.calcScore ⟨tu1, wu1, rt, ai⟩ w =
      PlansList.calcScore ⟨tu2, wu2, rt, ai⟩ w := rfl

/-- C8: the calculator is symmetric about the 20 °C comfort baseline:
temperatures 20 + d and 20 − d yield the same breakdown (hence the same
tempPoints and total), in both implementations. -/
theorem calcScore_temp_symmetric (settings : Settings) (m : ScoringMode)
    (rain wind d : ℚ) :
    PlansList.calcScore settings ⟨20 + d, rain, wind⟩ =
      PlansList.calcScore settings ⟨20 - d, rain, wind⟩ ∧
    Insights.calcScore ⟨20 + d, rain, wind⟩ m =
      Insights.calcScore ⟨20 - d, rain, wind⟩ m := by
  have habs : |(20 + d : ℚ) - 20| = |(20 - d : ℚ) - 20| := by
    rw [show (20 + d : ℚ) - 20 = d by ring, show (20 - d : ℚ) - 20 = -d by ring,
      abs_neg]
  constructor
  · unfold PlansList.calcScore
    dsimp only
    rw [habs]
  · unfold Insights.calcScore
    dsimp only
    rw [habs]

end PlanCast

namespace PlanCast

/-- Case characterisation of `Insights.getGuidance`: the ternary threshold
lookup agrees with the `lowThreshold` / `highThreshold` tables for every
risk tolerance. -/
theorem getGuidance_eq_bands (tu : TempUnit) (wu : WindUnit) (rt : RiskTolerance)
    (ai : Bool) (score : ℤ) :
    Insights.getGuidance ⟨tu, wu, rt, ai⟩ score =
      if score ≤ lowThreshold rt then ⟨"Keep", "#22c55e"⟩
      else if score ≤ highThreshold rt then ⟨"Adjust", "#f97316"⟩
      else ⟨"Reschedule", "#ef4444"⟩ := by
  cases rt <;> rfl

/-- C4: for every integer total in [0, 100] and every risk tolerance with
thresholds (low, high), the classifier returns Keep iff total ≤ low,
Adjust iff low < total ≤ high, and Reschedule iff total > high (boundaries
belong to the lower band); in particular for Medium (33, 66):
33 ↦ Keep, 34 ↦ Adjust, 66 ↦ Adjust, 67 ↦ Reschedule. -/
theorem getGuidance_bands (settings : Settings) (total : ℤ)
    (h0 : 0 ≤ total) (h1 : total ≤ 100) :
    (((Insights.getGuidance settings total).text = "Keep") ↔
        total ≤ lowThreshold settings.riskTolerance) ∧
    (((Insights.getGuidance settings total).text = "Adjust") ↔
        (lowThreshold settings.riskTolerance < total ∧
         total ≤ highThreshold settings.riskTolerance)) ∧
    (((Insights.getGuidance settings total).text = "Reschedule") ↔
        highThreshold settings.riskTolerance < total) ∧
    (Insights.getGuidance { settings with riskTolerance := RiskTolerance.Medium } 33).text = "Keep" ∧
    (Insights.getGuidance { settings with riskTolerance := RiskTolerance.Medium } 34).text = "Adjust" ∧
    (Insights.getGuidance { settings with riskTolerance := RiskTolerance.Medium } 66).text = "Adjust" ∧
    (Insights.getGuidance { settings with riskTolerance := RiskTolerance.Medium } 67).text = "Reschedule" := by
  obtain ⟨tu, wu, rt, ai⟩ := settings
  simp only [getGuidance_eq_bands]
  have hlh : lowThreshold rt < highThreshold rt := by cases rt <;> decide
  refine ⟨?_, ?_, ?_, by decide, by decide, by decide, by decide⟩ <;>
    split_ifs <;>
    first
      | exact iff_of_true rfl (by omega)
      | exact iff_of_false (by decide) (by omega)

/-- C4 witness: at total 40 under Medium tolerance the Adjust band test of
`getGuidance_bands` is instantiated concretely. -/
theorem getGuidance_bands_witness :
    ((Insights.getGuidance ⟨TempUnit.C, WindUnit.ms, RiskTolerance.Medium, false⟩ 40).text
        = "Adjust") ↔
      (lowThreshold RiskTolerance.Medium < 40 ∧
       (40 : ℤ) ≤ highThreshold RiskTolerance.Medium) :=
  (getGuidance_bands ⟨TempUnit.C, WindUnit.ms, RiskTolerance.Medium, false⟩ 40
    (by decide) (by decide)).2.1

/-- C5: whenever the pre-clamp sum of the breakdown's per-factor points is
strictly below 15, the explanation is the fixed favorable-weather message,
regardless of the clamped total field and before any dominance check. -/
theorem getExplanation_early_exit (settings : Settings) (w : Weather) (s : ScoreBreakdown)
    (h : s.rain + s.wind + s.temp < 15) :
    PlansList.getExplanation settings w s = "Weather conditions look favorable." := by
  unfold PlansList.getExplanation
  rw [if_pos h]

/-- C5 witness: points 5 + 5 + 4 = 14 < 15 give the favorable message even
with heavy raw rain (30 mm) and a clamped total of 100. -/
theorem getExplanation_early_exit_witness :
    PlansList.getExplanation ⟨TempUnit.C, WindUnit.ms, RiskTolerance.Medium, false⟩
      ⟨20, 30, 0⟩ ⟨5, 5, 4, 100⟩ = "Weather conditions look favorable." :=
  getExplanation_early_exit _ _ _ (by decide)

/-- C6: with totalFactorPoints ≥ 15 the dominant factor is picked by
pairwise ≥ comparison with ties favoring rain first, then wind (a full tie
selects the rain branch); the rain branch cites the raw precipitation to
one decimal place when it exceeds 5 mm and otherwise returns the generic
light-rain message, and each branch yields exactly one message. -/
theorem getExplanation_dominance (settings : Settings) (w : Weather) (s : ScoreBreakdown)
    (h : 15 ≤ s.rain + s.wind + s.temp) :
    ((s.rain ≥ s.wind ∧ s.rain ≥ s.temp) →
      PlansList.getExplanation settings w s =
        if w.rain > 5 then "Rain (" ++ toFixed1 w.rain ++ "mm) is the main concern."
        else "Light rain may affect plans.") ∧
    ((¬(s.rain ≥ s.wind ∧ s.rain ≥ s.temp) ∧ s.wind ≥ s.rain ∧ s.wind ≥ s.temp) →
      PlansList.getExplanation settings w s =
        "Wind (" ++ (if settings.windUnit = WindUnit.kmh then toFixed1 (w.wind * 3.6) else toFixed1 w.wind)
          ++ (if settings.windUnit = WindUnit.kmh then "km/h" else "m/s")
          ++ ") is the main factor.") ∧
    ((s.rain = s.wind ∧ s.wind = s.temp) →
      PlansList.getExplanation settings w s =
        if w.rain > 5 then "Rain (" ++ toFixed1 w.rain ++ "mm) is the main concern."
        else "Light rain may affect plans.") := by
  unfold PlansList.getExplanation
  rw [if_neg (by omega : ¬ (s.rain + s.wind + s.temp < 15))]
  refine ⟨?_, ?_, ?_⟩
  · intro hd
    rw [if_pos hd]
  · rintro ⟨hnr, hw⟩
    rw [if_neg hnr, if_pos hw]
  · rintro ⟨h1, h2⟩
    rw [if_pos (⟨by omega, by omega⟩ : s.rain ≥ s.wind ∧ s.rain ≥ s.temp)]

/-- C6 witness: the full tie 10 = 10 = 10 (sum 30 ≥ 15) with raw rain 6 mm
selects the rain branch and cites "6.0". -/
theorem getExplanation_dominance_witness :
    PlansList.getExplanation ⟨TempUnit.C, WindUnit.ms, RiskTolerance.Medium, false⟩
      ⟨20, 6, 0⟩ ⟨10, 10, 10, 30⟩ =
      "Rain (" ++ toFixed1 6 ++ "mm) is the main concern." := by
  have h := (getExplanation_dominance ⟨TempUnit.C, WindUnit.ms, RiskTolerance.Medium, false⟩
      ⟨20, 6, 0⟩ ⟨10, 10, 10, 30⟩ (by decide)).2.2 ⟨rfl, rfl⟩
  rw [h, if_pos (by norm_num : (6 : ℚ) > 5)]

/-- C2: a five-slot noon series whose slot at index 3 is absent is reduced
to exactly four entries; the absent slot is skipped rather than failing the
series, the remaining entries keep the chronological order, and the
"(Today)" and "(Tomorrow)" labels sit at output offsets 0 and 1. -/
theorem fetchForecast_skips_missing_slot (w0 w1 w2 w4 : Weather)
    (settings : Settings) (m : ScoringMode) (d : ℕ) :
    (Insights.fetchForecastResults
        (fun n => if n = 12 then some w0 else if n = 36 then some w1
          else if n = 60 then some w2 else if n = 84 then none
          else if n = 108 then some w4 else none) settings m d).length = 4 ∧
    Insights.fetchForecastResults
        (fun n => if n = 12 then some w0 else if n = 36 then some w1
          else if n = 60 then some w2 else if n = 84 then none
          else if n = 108 then some w4 else none) settings m d =
      [⟨Insights.dayNames.getD (d % 7) "" ++ " (Today)", Insights.calcScore w0 m,
        (Insights.getGuidance settings (Insights.calcScore w0 m)).text,
        (Insights.getGuidance settings (Insights.calcScore w0 m)).color⟩,
       ⟨Insights.dayNames.getD ((d + 1) % 7) "" ++ " (Tomorrow)", Insights.calcScore w1 m,
        (Insights.getGuidance settings (Insights.calcScore w1 m)).text,
        (Insights.getGuidance settings (Insights.calcScore w1 m)).color⟩,
       ⟨Insights.dayNames.getD ((d + 2) % 7) "", Insights.calcScore w2 m,
        (Insights.getGuidance settings (Insights.calcScore w2 m)).text,
        (Insights.getGuidance settings (Insights.calcScore w2 m)).color⟩,
       ⟨Insights.dayNames.getD ((d + 4) % 7) "", Insights.calcScore w4 m,
        (Insights.getGuidance settings (Insights.calcScore w4 m)).text,
        (Insights.getGuidance settings (Insights.calcScore w4 m)).color⟩] :=
  ⟨rfl, rfl⟩

end PlanCast
